import Mathlib

/-!
Verification of the Wind-Forecast service (src/app.py).

The development shallowly embeds the pieces of `app.py` that the
specification talks about:

* the timestamp normalization loop of `fetch_openmeteo` (lines 46-55),
  including a model of Python's `datetime.fromisoformat` restricted to the
  ISO-8601 shapes that function accepts (date, optional time, optional
  `+HH:MM` offset, optional 3- or 6-digit fraction), and of
  `str.replace("Z", "+00:00")`;
* the horizon clamp and truncation of `fetch_openmeteo` (lines 40-44);
* the request validation and response assembly of `api_forecast`
  (lines 154-176), with Python `float(...)` coercion modelled as an exact
  decimal-string parser into rationals (the claims never depend on binary
  floating-point rounding);
* the numeric layout computations of `render_png` (lines 81-147): the
  colour-scale normalization bounds, the gust error bars, the y-limits and
  the x-limit endpoints, with numpy reductions over empty arrays modelled
  as errors.

Numeric series values are modelled as rationals; remote data is passed as
an explicit argument (the HTTP client itself is outside the program).
`datetime.fromtimestamp(0)` is modelled as the naive Unix epoch origin,
i.e. a host whose local clock is UTC.
-/

/-- Model of a Python `datetime`: a civil date-time with an optional fixed
UTC offset in minutes (`none` means a naive value, as produced for
timestamps without an offset suffix). -/
structure PyDateTime where
  year : Nat
  month : Nat
  day : Nat
  hour : Nat
  minute : Nat
  second : Nat
  microsecond : Nat
  utcoffsetMinutes : Option Int
  deriving DecidableEq

/-- `datetime.fromtimestamp(0)` on a UTC host: the Unix epoch origin as a
naive value. -/
def epochDT : PyDateTime := ⟨1970, 1, 1, 0, 0, 0, 0, none⟩

def isLeapYear (y : Nat) : Bool :=
  (y % 4 == 0 && y % 100 != 0) || y % 400 == 0

def daysInMonth (y m : Nat) : Nat :=
  if m == 2 then (if isLeapYear y then 29 else 28)
  else if m == 4 || m == 6 || m == 9 || m == 11 then 30
  else 31

/-- Days from 1970-01-01 to the civil date y-m-d (proleptic Gregorian). -/
def daysFromCivil (y : Int) (m d : Nat) : Int :=
  let yAdj : Int := if m ≤ 2 then y - 1 else y
  let era : Int := (if 0 ≤ yAdj then yAdj else yAdj - 399) / 400
  let yoe : Int := yAdj - era * 400
  let mp : Int := ((m : Int) + 9) % 12
  let doy : Int := (153 * mp + 2) / 5 + (d : Int) - 1
  let doe : Int := yoe * 365 + yoe / 4 - yoe / 100 + doy
  era * 146097 + doe - 719468

/-- The instant a `PyDateTime` denotes, in microseconds since the Unix
epoch (naive values are read as UTC). -/
def toEpochMicro (t : PyDateTime) : Int :=
  ((daysFromCivil (t.year : Int) t.month t.day) * 86400
      + (t.hour : Int) * 3600 + (t.minute : Int) * 60 + (t.second : Int)
      - (t.utcoffsetMinutes.getD 0) * 60) * 1000000
    + (t.microsecond : Int)

def digitsToNat (ds : List Char) : Nat :=
  ds.foldl (fun a c => a * 10 + (c.toNat - 48)) 0

/-- Read exactly `n` decimal digits, returning their value and the rest. -/
def readNDigits : Nat → Nat → List Char → Option (Nat × List Char)
  | acc, 0, cs => some (acc, cs)
  | acc, n + 1, c :: cs =>
      if c.isDigit then readNDigits (acc * 10 + (c.toNat - 48)) n cs else none
  | _, _ + 1, [] => none

def expectChar (c : Char) : List Char → Option (List Char)
  | d :: cs => if d = c then some cs else none
  | [] => none

/-- Parse an optional trailing UTC offset `+HH:MM` or `-HH:MM` (the shape
`datetime.fromisoformat` accepts after the time part); the empty rest means
a naive value. -/
def parseOffset (cs : List Char) : Option (Option Int) :=
  match cs with
  | [] => some none
  | sgn :: rest =>
      if sgn = '+' || sgn = '-' then do
        let (oh, r1) ← readNDigits 0 2 rest
        let r2 ← expectChar ':' r1
        let (om, r3) ← readNDigits 0 2 r2
        if r3 = [] ∧ oh ≤ 23 ∧ om ≤ 59 then
          let total : Int := oh * 60 + om
          some (some (if sgn = '-' then -total else total))
        else none
      else none

/-- Parse an optional fractional-second part: a dot followed by exactly 3
or 6 digits, as `datetime.fromisoformat` requires; value in microseconds. -/
def parseFrac (cs : List Char) : Option (Nat × List Char) :=
  match cs with
  | '.' :: rest =>
      let ds := rest.takeWhile Char.isDigit
      let r := rest.dropWhile Char.isDigit
      if ds.length = 3 then some (digitsToNat ds * 1000, r)
      else if ds.length = 6 then some (digitsToNat ds, r)
      else none
  | cs => some (0, cs)

/-- Parse the time-of-day part `HH[:MM[:SS[.fff[fff]]]]` with optional
offset, as `datetime.fromisoformat` accepts it. -/
def parseTimePart (cs : List Char) : Option (Nat × Nat × Nat × Nat × Option Int) := do
  let (hh, r1) ← readNDigits 0 2 cs
  if hh ≤ 23 then
    match r1 with
    | ':' :: r2 => do
        let (mi, r3) ← readNDigits 0 2 r2
        if mi ≤ 59 then
          match r3 with
          | ':' :: r4 => do
              let (ss, r5) ← readNDigits 0 2 r4
              if ss ≤ 59 then do
                let (us, r6) ← parseFrac r5
                let off ← parseOffset r6
                pure (hh, mi, ss, us, off)
              else none
          | r4 => do
              let off ← parseOffset r4
              pure (hh, mi, 0, 0, off)
        else none
    | r2 => do
        let off ← parseOffset r2
        pure (hh, 0, 0, 0, off)
  else none

/-- Model of `datetime.fromisoformat` on a character list: `YYYY-MM-DD`,
optionally followed by a separator (`T` or space) and a time part, with
field-range validation as the `datetime` constructor performs it. -/
def fromisoformatCore (cs : List Char) : Option PyDateTime := do
  let (y, r1) ← readNDigits 0 4 cs
  let r2 ← expectChar '-' r1
  let (mo, r3) ← readNDigits 0 2 r2
  let r4 ← expectChar '-' r3
  let (d, r5) ← readNDigits 0 2 r4
  if 1 ≤ y ∧ 1 ≤ mo ∧ mo ≤ 12 ∧ 1 ≤ d ∧ d ≤ daysInMonth y mo then
    match r5 with
    | [] => pure ⟨y, mo, d, 0, 0, 0, 0, none⟩
    | sep :: rest =>
        if sep = 'T' || sep = ' ' then do
          let (hh, mi, ss, us, off) ← parseTimePart rest
          pure ⟨y, mo, d, hh, mi, ss, us, off⟩
        else none
  else none

/-- Model of `str.replace("Z", "+00:00")`: every occurrence of the
single-character pattern `Z` is replaced. -/
def replaceZ : List Char → List Char
  | [] => []
  | c :: cs =>
      if c = 'Z' then '+' :: '0' :: '0' :: ':' :: '0' :: '0' :: replaceZ cs
      else c :: replaceZ cs

/-- A raw timestamp of the remote hourly series: either already a
structured `datetime` (the `isinstance(t, datetime)` branch) or an
arbitrary value seen through its string form `str(t)`. -/
inductive RawTime where
  | dt (d : PyDateTime)
  | str (s : String)
  deriving DecidableEq

/-- The parse attempt `datetime.fromisoformat(str(t).replace("Z", "+00:00"))`
performed on a raw timestamp; a structured value needs no parsing. -/
def rawParsed : RawTime → Option PyDateTime
  | .dt d => some d
  | .str s => fromisoformatCore (replaceZ s.toList)

/-- The timestamp-normalization loop body of `fetch_openmeteo`
(src/app.py lines 48-55): keep structured values as-is, otherwise parse
the string form with `Z` rewritten to `+00:00`, falling back to
`datetime.fromtimestamp(0)` on any parse failure. -/
def normalizeTime (t : RawTime) : PyDateTime :=
  match t with
  | .dt d => d
  | .str s =>
      match fromisoformatCore (replaceZ s.toList) with
      | some d => d
      | none => epochDT

def natDigitsAux : Nat → Nat → List Char → List Char
  | 0, _, acc => acc
  | fuel + 1, n, acc =>
      let d := Char.ofNat (48 + n % 10)
      if n < 10 then d :: acc else natDigitsAux fuel (n / 10) (d :: acc)

/-- Decimal rendering of a natural number, zero-padded to width `w`. -/
def natPad (w n : Nat) : String :=
  let ds := natDigitsAux (n + 1) n []
  String.mk (List.replicate (w - ds.length) '0' ++ ds)

/-- Model of `datetime.isoformat()` as used on the normalized timestamps:
date and time with seconds, the microsecond field only when nonzero, and a
`+HH:MM`/`-HH:MM` suffix for aware values. -/
def isoformat (t : PyDateTime) : String :=
  natPad 4 t.year ++ "-" ++ natPad 2 t.month ++ "-" ++ natPad 2 t.day ++ "T"
    ++ natPad 2 t.hour ++ ":" ++ natPad 2 t.minute ++ ":" ++ natPad 2 t.second
    ++ (if t.microsecond = 0 then "" else "." ++ natPad 6 t.microsecond)
    ++ (match t.utcoffsetMinutes with
        | none => ""
        | some off =>
            (if off < 0 then "-" else "+")
              ++ natPad 2 (off.natAbs / 60) ++ ":" ++ natPad 2 (off.natAbs % 60))

/-- A JSON scalar as it can appear as a field of the request payload. -/
inductive JsonVal where
  | num (q : ℚ)
  | str (s : String)
  | jbool (b : Bool)
  | null
  | other
  deriving DecidableEq

/-- A parsed request body: a JSON object (field list) or any non-object
JSON document, on which subscripting raises. -/
inductive Json where
  | obj (fields : List (String × JsonVal))
  | nonObj
  deriving DecidableEq

/-- `payload[key]` wrapped in the handler's try-block: `none` when the
lookup raises (missing key, or non-object payload). -/
def Json.getKey : Json → String → Option JsonVal
  | .obj fs, k => fs.lookup k
  | .nonObj, _ => none

def isWs (c : Char) : Bool :=
  c = ' ' || c = '\t' || c = '\n' || c = '\r'

/-- Parse an optional exponent suffix `e`/`E` with optional sign and at
least one digit; absent exponent yields 0 with the input unchanged. -/
def parseExpPart : List Char → Option (Int × List Char)
  | [] => some (0, [])
  | c :: r =>
      if c = 'e' || c = 'E' then
        let (sgn, r1) :=
          match r with
          | '+' :: rr => ((1 : Int), rr)
          | '-' :: rr => ((-1 : Int), rr)
          | rr => ((1 : Int), rr)
        let ds := r1.takeWhile Char.isDigit
        let r2 := r1.dropWhile Char.isDigit
        if ds.isEmpty then none else some (sgn * (digitsToNat ds : Int), r2)
      else some (0, c :: r)

/-- Model of Python `float(s)` on a string: surrounding whitespace, an
optional sign, a decimal mantissa with at least one digit, and an optional
exponent; the value is kept exact as a rational. -/
def parseFloatStr (s : String) : Option ℚ :=
  let cs0 := s.toList.dropWhile isWs
  let (sgn, cs1) :=
    match cs0 with
    | '+' :: r => ((1 : ℚ), r)
    | '-' :: r => ((-1 : ℚ), r)
    | r => ((1 : ℚ), r)
  let (ip, cs2) := (cs1.takeWhile Char.isDigit, cs1.dropWhile Char.isDigit)
  let (fp, cs3) :=
    match cs2 with
    | '.' :: r => (r.takeWhile Char.isDigit, r.dropWhile Char.isDigit)
    | r => ([], r)
  if ip.isEmpty && fp.isEmpty then none
  else
    match parseExpPart cs3 with
    | none => none
    | some (ex, cs4) =>
        if (cs4.dropWhile isWs).isEmpty then
          let mag : ℚ := (digitsToNat ip : ℚ) + (digitsToNat fp : ℚ) / ((10 : ℚ) ^ fp.length)
          some (sgn * (if 0 ≤ ex then mag * (10 : ℚ) ^ ex.toNat else mag / ((10 : ℚ) ^ (-ex).toNat)))
        else none

/-- Model of Python `float(x)` on a JSON field value: numbers pass
through, strings are parsed, booleans coerce to 0/1, everything else
raises. -/
def pyFloat : JsonVal → Option ℚ
  | .num q => some q
  | .str s => parseFloatStr s
  | .jbool b => some (if b then 1 else 0)
  | .null => none
  | .other => none

/-- The validation try-block of `api_forecast` (src/app.py lines 156-161):
`request.get_json(force=True)` (`none` = unparseable body), then
`float(payload["lat"])` and `float(payload["lon"])`; any raise yields
`none`. -/
def parsePayload (body : Option Json) : Option (ℚ × ℚ) :=
  body.bind fun j =>
    (Json.getKey j ("lat")).bind fun latV =>
      (pyFloat latV).bind fun lat =>
        (Json.getKey j ("lon")).bind fun lonV =>
          (pyFloat lonV).bind fun lon =>
            some (lat, lon)

/-- The hourly arrays of the remote Open-Meteo response, as
`fetch_openmeteo` reads them from `forecast.hourly`. -/
structure RemoteHourly where
  time : List RawTime
  wind_direction_10m : List ℚ
  wind_speed_10m : List ℚ
  wind_gusts_10m : List ℚ
  deriving DecidableEq

/-- The dictionary returned by `fetch_openmeteo`. -/
structure Series where
  time_dt : List PyDateTime
  wind_dir : List ℚ
  wind_speed : List ℚ
  wind_gust : List ℚ
  deriving DecidableEq

/-- The pure part of `fetch_openmeteo` (src/app.py lines 40-62): clamp the
horizon to `max(1, int(hours))`, slice each hourly array to that many
leading elements, and normalize the sliced timestamps. The remote response
is an explicit argument. -/
def fetch_openmeteo (remote : RemoteHourly) (hours : Int) : Series :=
  let nhours : Nat := (max 1 hours).toNat
  { time_dt := (remote.time.take nhours).map normalizeTime
    wind_dir := remote.wind_direction_10m.take nhours
    wind_speed := remote.wind_speed_10m.take nhours
    wind_gust := remote.wind_gusts_10m.take nhours }

/-- The `meta` object of a successful response. -/
structure Meta where
  lat : ℚ
  lon : ℚ
  hours : Int
  unit : String
  deriving DecidableEq

/-- A response body: either the error object `{"error": msg}` or the
forecast object with its four arrays and `meta`. -/
inductive RespBody where
  | errorBody (msg : String)
  | forecastBody (time : List String) (wind_dir wind_speed wind_gust : List ℚ) (meta : Meta)
  deriving DecidableEq

structure HttpResponse where
  status : Nat
  body : RespBody
  deriving DecidableEq

/-- The `POST /api/forecast` handler (src/app.py lines 154-176). The
request body arrives as `Option Json` (`none` = not syntactically valid
JSON, so `get_json(force=True)` raises inside the validation try-block);
the outcome of `loop_runner.run(fetch_openmeteo(...), timeout=30)` arrives
as `Except String RemoteHourly`, the error carrying the exception text. -/
def api_forecast (body : Option Json) (fetchOutcome : Except String RemoteHourly) :
    HttpResponse :=
  match parsePayload body with
  | none => ⟨400, RespBody.errorBody ("Invalid payload. Provide lat, lon, optional hours.")⟩
  | some (lat, lon) =>
      let hours : Int := 120
      match fetchOutcome with
      | .error e => ⟨500, RespBody.errorBody ("Forecast fetch failed: " ++ e)⟩
      | .ok remote =>
          let series := fetch_openmeteo remote hours
          ⟨200, RespBody.forecastBody (series.time_dt.map isoformat)
            series.wind_dir series.wind_speed series.wind_gust
            ⟨lat, lon, hours, "knots"⟩⟩

/-- `np.min` over a series: raises on a zero-size array. -/
def npMin : List ℚ → Except String ℚ
  | [] => .error ("zero-size array to reduction operation minimum which has no identity")
  | x :: xs => .ok (xs.foldl min x)

/-- `np.max` over a series: raises on a zero-size array. -/
def npMax : List ℚ → Except String ℚ
  | [] => .error ("zero-size array to reduction operation maximum which has no identity")
  | x :: xs => .ok (xs.foldl max x)

/-- `np.abs` on a scalar. -/
def npAbs (x : ℚ) : ℚ := if x < 0 then -x else x

/-- Elementwise `a - b` with numpy broadcasting of length-1 operands;
mismatched lengths raise. -/
def npBroadcastSub (a b : List ℚ) : Except String (List ℚ) :=
  if a.length = b.length then .ok (List.zipWith (fun x y => x - y) a b)
  else
    match a, b with
    | [x], bs => .ok (bs.map (fun y => x - y))
    | as_, [y] => .ok (as_.map (fun x => x - y))
    | _, _ => .error ("operands could not be broadcast together")

/-- The numeric layout values `render_png` computes: the colour-scale
normalization bounds (line 100), the upper gust error bars (line 107), the
y-limits (line 119) and the x-limit base timestamps (line 122). -/
structure RenderResult where
  vmin : ℚ
  vmax : ℚ
  gust_perr : List ℚ
  ylim : ℚ × ℚ
  xfirst : PyDateTime
  xlast : PyDateTime
  deriving DecidableEq

/-- The numeric core of `render_png` (src/app.py lines 81-147), in source
order: `Normalize(vmin=np.min(speed), vmax=np.max(gust))`, then
`np.abs(gust - speed)`, then `set_ylim(0, np.max(gust) + 3)`, then
`set_xlim` subscripting `hourly_time[0]` and `hourly_time[-1]`. Drawing
side effects (bars, table, colourbar, file write) carry no further numeric
content and are not modelled. -/
def render_png (series : Series) : Except String RenderResult := do
  let vmin ← npMin series.wind_speed
  let vmax ← npMax series.wind_gust
  let diff ← npBroadcastSub series.wind_gust series.wind_speed
  let gust_perr := diff.map npAbs
  let ymax ← npMax series.wind_gust
  let xfirst ← match series.time_dt.head? with
    | some t => Except.ok t
    | none => Except.error ("index 0 is out of bounds for axis 0 with size 0")
  let xlast ← match series.time_dt.getLast? with
    | some t => Except.ok t
    | none => Except.error ("index -1 is out of bounds for axis 0 with size 0")
  pure ⟨vmin, vmax, gust_perr, (0, ymax + 3), xfirst, xlast⟩

/-- Chronological comparison of two normalized timestamps as instants. -/
def chronLE (a b : PyDateTime) : Prop :=
  toEpochMicro a ≤ toEpochMicro b

instance : DecidableRel chronLE := fun a b =>
  inferInstanceAs (Decidable (toEpochMicro a ≤ toEpochMicro b))

instance : IsTrans PyDateTime chronLE :=
  ⟨fun _ _ _ h1 h2 => le_trans h1 h2⟩

/-- A timestamp list is in non-decreasing chronological order. -/
def chronOrdered (l : List PyDateTime) : Prop :=
  List.Chain' chronLE l

/-- Executable check of non-decreasing chronological order. -/
def chronOrderedB : List PyDateTime → Bool
  | [] => true
  | [_] => true
  | a :: b :: rest =>
      decide (toEpochMicro a ≤ toEpochMicro b) && chronOrderedB (b :: rest)

theorem chronOrderedB_iff (l : List PyDateTime) :
    chronOrderedB l = true ↔ chronOrdered l := by
  induction l with
  | nil => simp [chronOrderedB, chronOrdered]
  | cons a l ih =>
      cases l with
      | nil => simp [chronOrderedB, chronOrdered]
      | cons b rest =>
          simp only [chronOrderedB, Bool.and_eq_true, decide_eq_true_eq, ih,
            chronOrdered, List.chain'_cons, chronLE]

instance (l : List PyDateTime) : Decidable (chronOrdered l) :=
  decidable_of_iff (chronOrderedB l = true) (chronOrderedB_iff l)

/-- The four array lengths of a forecast body, `none` for an error body. -/
def respLengths (r : HttpResponse) : Option (Nat × Nat × Nat × Nat) :=
  match r.body with
  | .forecastBody t d s g _ => some (t.length, d.length, s.length, g.length)
  | .errorBody _ => none

theorem normalizeTime_eq_getD (t : RawTime) :
    normalizeTime t = (rawParsed t).getD epochDT := by
  cases t with
  | dt d => rfl
  | str s =>
      simp only [normalizeTime, rawParsed]
      cases fromisoformatCore (replaceZ s.toList) <;> rfl

theorem map_normalize_of_parsed (l : List RawTime)
    (h : ∀ t ∈ l, (rawParsed t).isSome = true) :
    l.map normalizeTime = l.filterMap rawParsed := by
  induction l with
  | nil => rfl
  | cons a l ih =>
      obtain ⟨d, hd⟩ := Option.isSome_iff_exists.mp (h a (by simp))
      simp only [List.map_cons, List.filterMap_cons, hd, normalizeTime_eq_getD, Option.getD_some]
      exact congrArg (d :: ·) (ih fun t ht => h t (by simp [ht]))

theorem parsePayload_some_shape (body : Option Json) (lat lon : ℚ)
    (h : parsePayload body = some (lat, lon)) :
    ∃ j latV lonV, body = some j ∧
      Json.getKey j ("lat") = some latV ∧ pyFloat latV = some lat ∧
      Json.getKey j ("lon") = some lonV ∧ pyFloat lonV = some lon := by
  cases body with
  | none => simp [parsePayload] at h
  | some j =>
      simp only [parsePayload, Option.bind_eq_bind, Option.some_bind] at h
      cases hk : Json.getKey j ("lat") with
      | none => rw [hk] at h; simp at h
      | some latV =>
          rw [hk, Option.some_bind] at h
          cases hf : pyFloat latV with
          | none => rw [hf] at h; simp at h
          | some lat0 =>
              rw [hf, Option.some_bind] at h
              cases hk2 : Json.getKey j ("lon") with
              | none => rw [hk2] at h; simp at h
              | some lonV =>
                  rw [hk2, Option.some_bind] at h
                  cases hf2 : pyFloat lonV with
                  | none => rw [hf2] at h; simp at h
                  | some lon0 =>
                      rw [hf2, Option.some_bind] at h
                      simp only [Option.some.injEq, Prod.mk.injEq] at h
                      exact ⟨j, latV, lonV, rfl, hk, by rw [hf, h.1], hk2, by rw [hf2, h.2]⟩

/-- C10: a request body that is not syntactically valid JSON raises inside
the same try-block as the lat/lon checks, so the handler returns the fixed
400 validation error, whatever the fetch would have produced. -/
theorem api_forecast_malformed_json_is_400 (f : Except String RemoteHourly) :
    api_forecast none f =
      ⟨400, RespBody.errorBody ("Invalid payload. Provide lat, lon, optional hours.")⟩ := by
  rfl

/-- C5: when `lat` is missing, or `lat` or `lon` is not float-parseable,
the handler returns HTTP 400 with exactly the fixed error body; the
response does not depend on the fetch outcome, so no fetch result is
consulted. -/
theorem api_forecast_invalid_payload_is_400 (j : Json)
    (h : Json.getKey j ("lat") = none ∨
         (Json.getKey j ("lat")).bind pyFloat = none ∨
         (Json.getKey j ("lon")).bind pyFloat = none)
    (f : Except String RemoteHourly) :
    api_forecast (some j) f =
      ⟨400, RespBody.errorBody ("Invalid payload. Provide lat, lon, optional hours.")⟩ := by
  have hp : parsePayload (some j) = none := by
    by_contra hne
    obtain ⟨⟨lat, lon⟩, hv⟩ := Option.ne_none_iff_exists.mp hne
    obtain ⟨j2, latV, lonV, hj, hk, hf, hk2, hf2⟩ :=
      parsePayload_some_shape (some j) lat lon hv.symm
    obtain rfl : j2 = j := by injection hj.symm
    rcases h with h | h | h
    · rw [hk] at h; exact Option.noConfusion h
    · rw [hk, Option.some_bind, hf] at h; exact Option.noConfusion h
    · rw [hk2, Option.some_bind, hf2] at h; exact Option.noConfusion h
  simp only [api_forecast, hp]

/-- C6: when validation succeeds and the fetch call (or the bridge
timeout) raises an exception with text `e`, the handler returns HTTP 500
with the error body embedding the raw exception text. -/
theorem api_forecast_fetch_failure_is_500 (body : Option Json) (lat lon : ℚ) (e : String)
    (hbody : parsePayload body = some (lat, lon)) :
    api_forecast body (Except.error e) =
      ⟨500, RespBody.errorBody ("Forecast fetch failed: " ++ e)⟩ := by
  simp only [api_forecast, hbody]

theorem nhours_of_120 : (max 1 (120 : Int)).toNat = 120 := rfl

theorem getKey_cons_of_ne (k a : String) (b : JsonVal) (l : List (String × JsonVal))
    (h : (k == a) = false) :
    Json.getKey (Json.obj ((a, b) :: l)) k = Json.getKey (Json.obj l) k := by
  simp only [Json.getKey, List.lookup]
  rw [h]

/-- C1: the handler never reads the `hours` field — adding (or removing) it
from the payload leaves the response unchanged — and on every valid
request the fetch runs with horizon exactly 120 and the response's
`meta.hours` equals 120. -/
theorem api_forecast_horizon_always_120 (fields : List (String × JsonVal)) (v : JsonVal)
    (f : Except String RemoteHourly) :
    (api_forecast (some (Json.obj (("hours", v) :: fields))) f
        = api_forecast (some (Json.obj fields)) f) ∧
    (∀ (body : Option Json) (lat lon : ℚ) (remote : RemoteHourly),
        parsePayload body = some (lat, lon) →
        api_forecast body (Except.ok remote) =
          ⟨200, RespBody.forecastBody ((fetch_openmeteo remote 120).time_dt.map isoformat)
            (fetch_openmeteo remote 120).wind_dir (fetch_openmeteo remote 120).wind_speed
            (fetch_openmeteo remote 120).wind_gust ⟨lat, lon, 120, "knots"⟩⟩) := by
  constructor
  · have hsame : parsePayload (some (Json.obj (("hours", v) :: fields)))
        = parsePayload (some (Json.obj fields)) := by
      simp only [parsePayload, Option.some_bind,
        getKey_cons_of_ne ("lat") ("hours") v fields rfl,
        getKey_cons_of_ne ("lon") ("hours") v fields rfl]
    unfold api_forecast
    rw [hsame]
  · intro body lat lon remote hbody
    simp only [api_forecast, hbody]

/-- C3: on every successful response the four arrays have identical
length, namely `min 120 L` where `L` is the length of the (aligned)
remote hourly arrays, and that common length is at most 120. -/
theorem api_forecast_success_lengths (remote : RemoteHourly) (L : Nat)
    (body : Option Json) (lat lon : ℚ)
    (ht : remote.time.length = L) (hd : remote.wind_direction_10m.length = L)
    (hs : remote.wind_speed_10m.length = L) (hg : remote.wind_gusts_10m.length = L)
    (hbody : parsePayload body = some (lat, lon)) :
    (api_forecast body (Except.ok remote)).status = 200 ∧
    respLengths (api_forecast body (Except.ok remote)) =
      some (min 120 L, min 120 L, min 120 L, min 120 L) ∧
    min 120 L ≤ 120 := by
  refine ⟨?_, ?_, Nat.min_le_left 120 L⟩
  · simp only [api_forecast, hbody]
  · simp only [api_forecast, hbody, respLengths, fetch_openmeteo, nhours_of_120,
      List.length_map, List.length_take, ht, hd, hs, hg]

/-- C7: for every fetch with horizon `hours`, the effective horizon is
`n = max(1, hours)` and each returned array is the `n`-element prefix of
the corresponding remote array — the whole array, unchanged, whenever the
remote data is shorter than `n`. -/
theorem fetch_openmeteo_truncation (remote : RemoteHourly) (hours : Int) :
    (1 ≤ (max 1 hours).toNat ∧ ((max 1 hours).toNat : Int) = max 1 hours) ∧
    fetch_openmeteo remote hours =
      ⟨(remote.time.take (max 1 hours).toNat).map normalizeTime,
        remote.wind_direction_10m.take (max 1 hours).toNat,
        remote.wind_speed_10m.take (max 1 hours).toNat,
        remote.wind_gusts_10m.take (max 1 hours).toNat⟩ ∧
    ((fetch_openmeteo remote hours).time_dt.length
        = min (max 1 hours).toNat remote.time.length ∧
      (fetch_openmeteo remote hours).wind_dir.length
        = min (max 1 hours).toNat remote.wind_direction_10m.length ∧
      (fetch_openmeteo remote hours).wind_speed.length
        = min (max 1 hours).toNat remote.wind_speed_10m.length ∧
      (fetch_openmeteo remote hours).wind_gust.length
        = min (max 1 hours).toNat remote.wind_gusts_10m.length) ∧
    (remote.time.length ≤ (max 1 hours).toNat →
      remote.wind_direction_10m.length ≤ (max 1 hours).toNat →
      remote.wind_speed_10m.length ≤ (max 1 hours).toNat →
      remote.wind_gusts_10m.length ≤ (max 1 hours).toNat →
      fetch_openmeteo remote hours =
        ⟨remote.time.map normalizeTime, remote.wind_direction_10m,
          remote.wind_speed_10m, remote.wind_gusts_10m⟩) := by
  refine ⟨⟨?_, ?_⟩, rfl, ?_, ?_⟩
  · omega
  · omega
  · simp [fetch_openmeteo, List.length_take, List.length_map]
  · intro h1 h2 h3 h4
    simp [fetch_openmeteo, List.take_of_length_le, h1, h2, h3, h4]

/-- C4 (amended): chronological order is preserved for source timestamps
that actually parse: if every raw timestamp of the remote series parses
successfully and the parsed instants are non-decreasing, then the
normalized timestamp series of the successful response is non-decreasing.
(The unparseable-timestamp fallback to the epoch origin can break this;
see the counterexample.) -/
theorem api_forecast_time_order_preserved (remote : RemoteHourly)
    (body : Option Json) (lat lon : ℚ)
    (hbody : parsePayload body = some (lat, lon))
    (hall : ∀ t ∈ remote.time, (rawParsed t).isSome = true)
    (hsorted : chronOrdered (remote.time.filterMap rawParsed)) :
    (api_forecast body (Except.ok remote)).status = 200 ∧
    chronOrdered (fetch_openmeteo remote 120).time_dt := by
  refine ⟨by simp only [api_forecast, hbody], ?_⟩
  have h0 : (fetch_openmeteo remote 120).time_dt
      = (remote.time.take 120).map normalizeTime := rfl
  rw [h0, List.map_take, map_normalize_of_parsed remote.time hall]
  exact hsorted.take 120

/-- A syntactically valid request body with parseable coordinates. -/
def bodyCE : Option Json :=
  some (Json.obj [("lat", JsonVal.num 41), ("lon", JsonVal.num (-71))])

/-- A remote series whose second timestamp is unparseable: the silent
epoch-origin fallback makes the normalized series go backwards in time. -/
def remoteCE : RemoteHourly :=
  ⟨[RawTime.str ("2024-05-01T10:00:00"), RawTime.str ("not-a-date")],
    [100, 200], [5, 6], [8, 9]⟩

/-- C4 (counterexample): a successful (HTTP 200) response whose `time`
array is not non-decreasing — the unparseable second timestamp was
silently replaced by the epoch origin, which precedes the first entry. -/
theorem api_forecast_time_order_counterexample :
    (api_forecast bodyCE (Except.ok remoteCE)).status = 200 ∧
    (api_forecast bodyCE (Except.ok remoteCE)).body =
      RespBody.forecastBody ["2024-05-01T10:00:00", "1970-01-01T00:00:00"]
        [100, 200] [5, 6] [8, 9] ⟨41, -71, 120, "knots"⟩ ∧
    ¬ chronOrdered (fetch_openmeteo remoteCE 120).time_dt := by
  refine ⟨rfl, by decide, fun h => ?_⟩
  have hb : chronOrderedB (fetch_openmeteo remoteCE 120).time_dt = false := by decide
  have ht := (chronOrderedB_iff _).mpr h
  rw [hb] at ht
  exact Bool.noConfusion ht

instance {e a : Type} [DecidableEq e] [DecidableEq a] : DecidableEq (Except e a) := fun x y =>
  match x, y with
  | .ok v, .ok w =>
      if h : v = w then isTrue (by rw [h]) else isFalse (fun hc => h (Except.ok.inj hc))
  | .error v, .error w =>
      if h : v = w then isTrue (by rw [h]) else isFalse (fun hc => h (Except.error.inj hc))
  | .ok _, .error _ => isFalse (fun hc => Except.noConfusion hc)
  | .error _, .ok _ => isFalse (fun hc => Except.noConfusion hc)

theorem except_bind_ok {ε α β : Type} (x : Except ε α) (f : α → Except ε β) (b : β)
    (h : (x >>= f) = Except.ok b) : ∃ a, x = Except.ok a ∧ f a = Except.ok b := by
  cases x with
  | error e => exact Except.noConfusion h
  | ok a => exact ⟨a, rfl, h⟩

/-- C2: timestamp normalization keeps structured temporal values as-is;
string forms are parsed with the trailing `Z` UTC marker rewritten to an
explicit `+00:00` offset, so `"2024-01-01T00:00:00Z"` yields that UTC
instant with zero offset; any value that fails to parse becomes the Unix
epoch origin instant, as `"not-a-date"` does. -/
theorem normalizeTime_spec :
    (∀ d, normalizeTime (RawTime.dt d) = d) ∧
    (∀ s d, fromisoformatCore (replaceZ s.toList) = some d →
        normalizeTime (RawTime.str s) = d) ∧
    (normalizeTime (RawTime.str ("2024-01-01T00:00:00Z"))
        = ⟨2024, 1, 1, 0, 0, 0, 0, some 0⟩) ∧
    (∀ s, fromisoformatCore (replaceZ s.toList) = none →
        normalizeTime (RawTime.str s) = epochDT) ∧
    (normalizeTime (RawTime.str ("not-a-date")) = epochDT) := by
  refine ⟨fun d => rfl, fun s d h => ?_, by decide, fun s h => ?_, by decide⟩
  · simp only [normalizeTime, h]
  · simp only [normalizeTime, h]

/-- C8: with an empty wind-speed series the renderer raises the zero-size
reduction error at `np.min`; with speed data present but an empty gust
series it raises at `np.max`; and on any well-formed series with at least
one data point (the aligned-lengths invariant of a ForecastSeries) no such
error is reached and the layout computation succeeds. -/
theorem render_png_empty_domain_error (s : Series) :
    (s.wind_speed = [] →
      render_png s =
        .error ("zero-size array to reduction operation minimum which has no identity")) ∧
    (s.wind_speed ≠ [] → s.wind_gust = [] →
      render_png s =
        .error ("zero-size array to reduction operation maximum which has no identity")) ∧
    (s.wind_gust.length = s.wind_speed.length → s.time_dt.length = s.wind_speed.length →
      s.wind_speed ≠ [] → (render_png s).isOk = true) := by
  refine ⟨fun h => ?_, fun hne h => ?_, fun hlg hlt hne => ?_⟩
  · simp only [render_png, h, npMin]
    rfl
  · obtain ⟨x, xs, hx⟩ := List.exists_cons_of_ne_nil hne
    simp only [render_png, hx, h, npMin, npMax]
    rfl
  · obtain ⟨x, xs, hx⟩ := List.exists_cons_of_ne_nil hne
    have hgne : s.wind_gust ≠ [] := by
      intro hg0
      rw [hg0, hx] at hlg
      exact absurd hlg (by simp)
    have htne : s.time_dt ≠ [] := by
      intro ht0
      rw [ht0, hx] at hlt
      exact absurd hlt (by simp)
    obtain ⟨y, ys, hy⟩ := List.exists_cons_of_ne_nil hgne
    obtain ⟨t, ts, ht⟩ := List.exists_cons_of_ne_nil htne
    cases hlast : (t :: ts).getLast? with
    | none => exact absurd (List.getLast?_eq_none_iff.mp hlast) (by simp)
    | some tl =>
        rw [hy, hx] at hlg
        simp only [render_png, hx, hy, ht, npMin, npMax, npBroadcastSub,
          List.head?_cons, hlast, if_pos hlg]
        rfl

/-- C9: whenever the renderer's layout computation succeeds on a series,
the y-axis limits are `[0, max(wind_gust) + 3]`; the length-1 series with
speed 10 and gust 15 (witness) gets the upper bound 18. -/
theorem render_png_ylim_bounds (s : Series) (g : ℚ) (gs : List ℚ) (r : RenderResult)
    (hg : s.wind_gust = g :: gs) (hr : render_png s = Except.ok r) :
    r.ylim = (0, gs.foldl max g + 3) := by
  rw [render_png] at hr
  obtain ⟨vmin, h1, hr⟩ := except_bind_ok _ _ _ hr
  obtain ⟨vmax, h2, hr⟩ := except_bind_ok _ _ _ hr
  obtain ⟨diff, h3, hr⟩ := except_bind_ok _ _ _ hr
  obtain ⟨ymax, h4, hr⟩ := except_bind_ok _ _ _ hr
  have hy : ymax = gs.foldl max g := by
    rw [hg] at h4
    simp only [npMax, Except.ok.injEq] at h4
    exact h4.symm
  cases hh : s.time_dt.head? with
  | none =>
      rw [hh] at hr
      exact Except.noConfusion hr
  | some t =>
      rw [hh] at hr
      cases hl : s.time_dt.getLast? with
      | none =>
          rw [hl] at hr
          exact Except.noConfusion hr
      | some tl =>
          rw [hl] at hr
          have hrr : (⟨vmin, vmax, diff.map npAbs, (0, ymax + 3), t, tl⟩ : RenderResult)
              = r := Except.ok.inj hr
          rw [← hrr, hy]

/-- A well-formed request body used by the witnesses. -/
def bodyW : Option Json :=
  some (Json.obj [("lat", JsonVal.num 41), ("lon", JsonVal.num (-71))])

/-- A small well-formed remote response used by the witnesses. -/
def remoteW : RemoteHourly :=
  ⟨[RawTime.str ("2024-01-01T00:00:00Z"), RawTime.str ("2024-01-01T01:00:00Z")],
    [100, 110], [5, 6], [8, 9]⟩

theorem api_forecast_horizon_always_120_witness :
    parsePayload bodyW = some (41, -71) ∧
    api_forecast bodyW (Except.ok remoteW) =
      ⟨200, RespBody.forecastBody ((fetch_openmeteo remoteW 120).time_dt.map isoformat)
        (fetch_openmeteo remoteW 120).wind_dir (fetch_openmeteo remoteW 120).wind_speed
        (fetch_openmeteo remoteW 120).wind_gust ⟨41, -71, 120, "knots"⟩⟩ :=
  ⟨by decide, (api_forecast_horizon_always_120 [] JsonVal.null (Except.ok remoteW)).2
      bodyW 41 (-71) remoteW (by decide)⟩

theorem normalizeTime_spec_witness :
    fromisoformatCore (replaceZ (("2024-03-01T12:30:00Z").toList))
      = some ⟨2024, 3, 1, 12, 30, 0, 0, some 0⟩ ∧
    normalizeTime (RawTime.str ("2024-03-01T12:30:00Z")) = ⟨2024, 3, 1, 12, 30, 0, 0, some 0⟩ ∧
    fromisoformatCore (replaceZ (("garbage").toList)) = none ∧
    normalizeTime (RawTime.str ("garbage")) = epochDT :=
  ⟨by decide, normalizeTime_spec.2.1 _ _ (by decide),
    by decide, normalizeTime_spec.2.2.2.1 _ (by decide)⟩

theorem api_forecast_success_lengths_witness :
    remoteW.time.length = 2 ∧ parsePayload bodyW = some (41, -71) ∧
    (api_forecast bodyW (Except.ok remoteW)).status = 200 ∧
    respLengths (api_forecast bodyW (Except.ok remoteW))
      = some (min 120 2, min 120 2, min 120 2, min 120 2) ∧
    min 120 2 ≤ 120 :=
  ⟨rfl, by decide,
    (api_forecast_success_lengths remoteW 2 bodyW 41 (-71) rfl rfl rfl rfl (by decide)).1,
    (api_forecast_success_lengths remoteW 2 bodyW 41 (-71) rfl rfl rfl rfl (by decide)).2.1,
    (api_forecast_success_lengths remoteW 2 bodyW 41 (-71) rfl rfl rfl rfl (by decide)).2.2⟩

theorem api_forecast_time_order_preserved_witness :
    (∀ t ∈ remoteW.time, (rawParsed t).isSome = true) ∧
    chronOrdered (remoteW.time.filterMap rawParsed) ∧
    ((api_forecast bodyW (Except.ok remoteW)).status = 200 ∧
      chronOrdered (fetch_openmeteo remoteW 120).time_dt) :=
  ⟨by decide, by decide,
    api_forecast_time_order_preserved remoteW bodyW 41 (-71) (by decide) (by decide) (by decide)⟩

theorem api_forecast_invalid_payload_is_400_witness :
    ((Json.obj [("lat", JsonVal.str ("abc")), ("lon", JsonVal.num 2)]).getKey ("lat")).bind pyFloat
      = none ∧
    api_forecast (some (Json.obj [("lat", JsonVal.str ("abc")), ("lon", JsonVal.num 2)]))
        (Except.ok remoteW) =
      ⟨400, RespBody.errorBody ("Invalid payload. Provide lat, lon, optional hours.")⟩ :=
  ⟨by decide,
    api_forecast_invalid_payload_is_400 (Json.obj [("lat", JsonVal.str ("abc")), ("lon", JsonVal.num 2)])
      (Or.inr (Or.inl (by decide))) (Except.ok remoteW)⟩

theorem api_forecast_fetch_failure_is_500_witness :
    parsePayload bodyW = some (41, -71) ∧
    api_forecast bodyW (Except.error ("TimeoutError")) =
      ⟨500, RespBody.errorBody ("Forecast fetch failed: " ++ "TimeoutError")⟩ :=
  ⟨by decide, api_forecast_fetch_failure_is_500 bodyW 41 (-71) ("TimeoutError") (by decide)⟩

theorem fetch_openmeteo_truncation_witness :
    remoteW.time.length ≤ (max 1 (5 : Int)).toNat ∧
    fetch_openmeteo remoteW 5 =
      ⟨remoteW.time.map normalizeTime, remoteW.wind_direction_10m,
        remoteW.wind_speed_10m, remoteW.wind_gusts_10m⟩ ∧
    (fetch_openmeteo remoteW 5).wind_speed.length
      = min (max 1 (5 : Int)).toNat remoteW.wind_speed_10m.length :=
  ⟨by decide,
    (fetch_openmeteo_truncation remoteW 5).2.2.2 (by decide) (by decide) (by decide) (by decide),
    (fetch_openmeteo_truncation remoteW 5).2.2.1.2.2.1⟩

theorem render_png_empty_domain_error_witness :
    render_png ⟨[], [], [], []⟩ =
      .error ("zero-size array to reduction operation minimum which has no identity") ∧
    render_png ⟨[epochDT], [100], [5], []⟩ =
      .error ("zero-size array to reduction operation maximum which has no identity") ∧
    (render_png ⟨[epochDT], [180], [10], [15]⟩).isOk = true :=
  ⟨(render_png_empty_domain_error ⟨[], [], [], []⟩).1 rfl,
    (render_png_empty_domain_error ⟨[epochDT], [100], [5], []⟩).2.1 (by decide) rfl,
    (render_png_empty_domain_error ⟨[epochDT], [180], [10], [15]⟩).2.2 (by decide) (by decide)
      (by decide)⟩

theorem render_png_ylim_bounds_witness :
    render_png ⟨[epochDT], [180], [10], [15]⟩ =
      Except.ok ⟨10, 15, [5], (0, 18), epochDT, epochDT⟩ ∧
    (⟨10, 15, [5], (0, 18), epochDT, epochDT⟩ : RenderResult).ylim
      = (0, ([] : List ℚ).foldl max 15 + 3) := by
  have hok : render_png ⟨[epochDT], [180], [10], [15]⟩ =
      Except.ok ⟨10, 15, [5], (0, 18), epochDT, epochDT⟩ := by
    have h1 : (15 : ℚ) - 10 = 5 := by norm_num
    have h2 : (15 : ℚ) + 3 = 18 := by norm_num
    have h3 : npAbs 5 = 5 := by
      rw [npAbs, if_neg (by norm_num)]
    show Except.ok
        (⟨10, 15, [npAbs ((15 : ℚ) - 10)], (0, (15 : ℚ) + 3), epochDT, epochDT⟩ : RenderResult)
      = Except.ok ⟨10, 15, [5], (0, 18), epochDT, epochDT⟩
    rw [h1, h2, h3]
  exact ⟨hok, render_png_ylim_bounds ⟨[epochDT], [180], [10], [15]⟩ 15 [] _ rfl hok⟩
